import Mathlib

/-!
Verification of the `comparer-cli` client (src/comparer-cli.py) against its
natural-language specification.  The Python program is shallowly embedded:
dictionaries become association lists over a small JSON value type, the
HTTP layer becomes an explicit oracle argument (`Except` for a call that can
fail), and each click command becomes a total Lean function from its inputs
and oracle results to an `Outcome` describing what the process does
(successful output, a `ClickException` error message, or an exception that
escapes every handler).
-/

namespace ComparerCli

/-- JSON values, as produced by `json.dumps` / the `json=` argument of
`requests`.  Python `None` serialises as `null`. -/
inductive JValue : Type where
  | null : JValue
  | str : String → JValue
  | num : Int → JValue
  | bool : Bool → JValue
  | arr : List JValue → JValue
  | obj : List (String × JValue) → JValue

/-- A Python dict with string keys holding JSON values, in insertion order. -/
abbrev JDict := List (String × JValue)

/-- Key list of a JSON object (Python dict key order); `[]` on non-objects. -/
def jKeys : JValue → List String
  | JValue.obj fields => fields.map Prod.fst
  | _ => []

/-- Association-list lookup with decidable string equality, mirroring Python
dict indexing (dict keys are unique, so first match is the match). -/
def alookup {β : Type} (k : String) : List (String × β) → Option β
  | [] => none
  | (k2, v) :: rest => if k2 = k then some v else alookup k rest

/-- Lookup of a key in a JSON object; `none` on non-objects. -/
def jLookup (k : String) : JValue → Option JValue
  | JValue.obj fields => alookup k fields
  | _ => none

/-! ### Python string primitives used by the CLI -/

/-- Python `str.lower()` (per-character lowercasing). -/
def pyLower (s : String) : String := String.mk (s.data.map Char.toLower)

/-- Character-list prefix test (helper for the substring test). -/
def isPrefOf : List Char → List Char → Bool
  | [], _ => true
  | _ :: _, [] => false
  | a :: as, b :: bs => a = b && isPrefOf as bs

/-- Character-list contiguous-substring test. -/
def isSubOf (needle : List Char) : List Char → Bool
  | [] => isPrefOf needle []
  | b :: bs => isPrefOf needle (b :: bs) || isSubOf needle bs

/-- Python `needle in hay` on strings: contiguous substring containment. -/
def pyContains (hay needle : String) : Bool := isSubOf needle.data hay.data

/-- Specification-level substring predicate: `needle` occurs contiguously
inside `hay`. -/
def SubstrOf (needle hay : List Char) : Prop := ∃ l r, hay = l ++ needle ++ r

/-- Case-insensitive match used by the spec to describe `list-models`
filtering: the term occurs in the field when both are lowercased. -/
def CIMatch (term field : String) : Prop :=
  SubstrOf (pyLower term).data (pyLower field).data

/-! ### Model records

A model record is a JSON object returned by the remote `/api/models/list`
endpoint.  The fields the CLI reads locally are `provider`, `model_family`
and `model_name` (spec section 3); each may be missing, which
`model.get(key, default)` maps to the default.  Other fields are opaque
pass-through values that none of the claims about record-reading commands
inspect, so the record embedding keeps just the three read fields;
`sample-spec`, which passes whole records through verbatim, is embedded
over raw `JDict` objects instead. -/

structure ModelRecord : Type where
  provider : Option String
  model_family : Option String
  model_name : Option String
deriving DecidableEq

/-- `model.get(key, '')` for the three read fields: missing becomes `''`. -/
def fieldOrEmpty (f : Option String) : String := f.getD ""

/-- The filter predicate of `list_models` (src lines 112-117): the lowered
search term must occur in the lowered `provider`, `model_family` or
`model_name`, each read with `model.get(key, '')`. -/
def modelMatches (search : String) (m : ModelRecord) : Bool :=
  pyContains (pyLower (fieldOrEmpty m.provider)) (pyLower search) ||
  pyContains (pyLower (fieldOrEmpty m.model_family)) (pyLower search) ||
  pyContains (pyLower (fieldOrEmpty m.model_name)) (pyLower search)

/-- The filtering step of `list_models` (src lines 110-117): only applied
when the search string is truthy, i.e. non-empty. -/
def filterModels (search : String) (models : List ModelRecord) : List ModelRecord :=
  if search = "" then models else models.filter (modelMatches search)

/-- One table row of `list_models` (src lines 127-131):
`model.get(key, 'N/A')` per column. -/
def renderRow (m : ModelRecord) : String × String × String :=
  (m.provider.getD "N/A", m.model_family.getD "N/A", m.model_name.getD "N/A")

/-- What `list_models` prints on success: either a no-models message or the
grid table plus the `Total models:` count line. -/
inductive ListModelsOutput : Type where
  | noModels : String → ListModelsOutput
  | table : List (String × String × String) → Nat → ListModelsOutput
deriving DecidableEq

/-- The success path of `list_models` (src lines 107-134): fetch, filter,
then either a message (empty result) or the table plus count line. -/
def listModelsRender (search : String) (models : List ModelRecord) : ListModelsOutput :=
  let ms := filterModels search models
  if ms.isEmpty then
    ListModelsOutput.noModels
      (if search = "" then "No models available"
       else "No models found matching search: " ++ pyLower search)
  else
    ListModelsOutput.table (ms.map renderRow) ms.length

/-! ### Provider counts (`ApiClient.get_providers`, src lines 34-41) -/

/-- `counts[provider] += 1` on a `defaultdict(int)` rendered as an
insertion-ordered association list: bump the existing entry in place, or
append a new entry with count 1. -/
def bumpCount : List (String × Nat) → String → List (String × Nat)
  | [], p => [(p, 1)]
  | (q, n) :: rest, p =>
    if q = p then (q, n + 1) :: rest else (q, n) :: bumpCount rest p

/-- The loop of `get_providers`; `m['provider']` raises `KeyError` when the
key is missing, which the embedding reports as `none`. -/
def getProvidersAux (acc : List (String × Nat)) :
    List ModelRecord → Option (List (String × Nat))
  | [] => some acc
  | m :: ms =>
    match m.provider with
    | none => none
    | some p => getProvidersAux (bumpCount acc p) ms

/-- `ApiClient.get_providers` (src lines 34-41): fetch all models and count
models per distinct `provider` value in a dict. -/
def get_providers (models : List ModelRecord) : Option (List (String × Nat)) :=
  getProvidersAux [] models

/-- The multiset of provider field values occurring in a model list. -/
def providersOf (models : List ModelRecord) : List String :=
  models.filterMap (fun m => m.provider)

/-- Pure counting loop over an extracted provider list, used to reason about
`getProvidersAux` once the `KeyError` case is excluded. -/
def countsFrom (acc : List (String × Nat)) : List String → List (String × Nat)
  | [] => acc
  | p :: ps => countsFrom (bumpCount acc p) ps

/-- Invariant of the counting loop: after processing the provider multiset
`ps`, the accumulator has duplicate-free keys and maps exactly the members
of `ps` to their multiplicities. -/
def GoodCounts (ps : List String) (acc : List (String × Nat)) : Prop :=
  (acc.map Prod.fst).Nodup ∧
  ∀ q, alookup q acc = if q ∈ ps then some (ps.count q) else none

/-! ### Search criteria and the request body of `search_models`
(src lines 43-78) -/

/-- The twelve filter parameters of `ApiClient.search_models`, each a Python
keyword argument defaulting to `None`.  The `search` command (src lines
180-198) passes its click options through verbatim, so an absent flag is
`none` here. -/
structure SearchCriteria : Type where
  provider : Option String
  min_context : Option Int
  max_context : Option Int
  min_output_tokens : Option Int
  max_output_tokens : Option Int
  tools : Option Bool
  multilingual : Option Bool
  audio : Option Bool
  vision : Option Bool
  reasoning : Option Bool
  fine_tuning : Option Bool
  streaming : Option Bool
deriving DecidableEq

/-- The criteria of `search` invoked with no flags: every field unset. -/
def SearchCriteria.unset : SearchCriteria :=
  ⟨none, none, none, none, none, none, none, none, none, none, none, none⟩

/-- A Python `Optional[str]` as JSON: `None` serialises to `null`. -/
def optStrJ : Option String → JValue
  | none => JValue.null
  | some s => JValue.str s

/-- A Python `Optional[int]` as JSON. -/
def optIntJ : Option Int → JValue
  | none => JValue.null
  | some n => JValue.num n

/-- A Python `Optional[bool]` as JSON. -/
def optBoolJ : Option Bool → JValue
  | none => JValue.null
  | some b => JValue.bool b

/-- The fixed metadata envelope of `search_models` (src lines 58-61). -/
def searchMetadata : JValue :=
  JValue.obj [("agent_id", JValue.str "cli"), ("task_id", JValue.str "search")]

/-- The criteria entries of the `search_models` payload dict, in source
order (src lines 62-73); note the `streaming` argument is sent under the
key `realtime_streaming`. -/
def criteriaFields (c : SearchCriteria) : List (String × JValue) :=
  [("provider", optStrJ c.provider),
   ("min_context", optIntJ c.min_context),
   ("max_context", optIntJ c.max_context),
   ("min_output_tokens", optIntJ c.min_output_tokens),
   ("max_output_tokens", optIntJ c.max_output_tokens),
   ("tools", optBoolJ c.tools),
   ("multilingual", optBoolJ c.multilingual),
   ("audio", optBoolJ c.audio),
   ("vision", optBoolJ c.vision),
   ("reasoning", optBoolJ c.reasoning),
   ("fine_tuning", optBoolJ c.fine_tuning),
   ("realtime_streaming", optBoolJ c.streaming)]

/-- The key names of the twelve criteria entries, in payload order. -/
def criteriaKeys : List String :=
  ["provider", "min_context", "max_context", "min_output_tokens",
   "max_output_tokens", "tools", "multilingual", "audio", "vision",
   "reasoning", "fine_tuning", "realtime_streaming"]

/-- The JSON body POSTed by `ApiClient.search_models` (src lines 57-76):
the metadata envelope followed by all twelve criteria entries. -/
def searchPayload (c : SearchCriteria) : JValue :=
  JValue.obj (("metadata", searchMetadata) :: criteriaFields c)

/-! ### `sample-spec` payload construction (src lines 234-274) -/

/-- `d[k] = v` on a Python dict as association list: overwrite the value of
an existing key in place, else append the new binding. -/
def dictSet : JDict → String → JValue → JDict
  | [], k, v => [(k, v)]
  | (k2, v2) :: rest, k, v =>
    if k2 = k then (k2, v) :: rest else (k2, v2) :: dictSet rest k v

/-- Python `d.update(kvs)`: set each binding of `kvs` in order. -/
def dictUpdate (d : JDict) : JDict → JDict
  | [] => d
  | (k, v) :: rest => dictUpdate (dictSet d k v) rest

/-- Metadata envelope of the `sample-spec compare` output (src 249-254). -/
def sampleCompareMetadata : JValue :=
  JValue.obj [("agent_id", JValue.str "cli-sample"),
              ("task_id", JValue.str "comparison-test"),
              ("message_id", JValue.str "msg123"),
              ("thread_id", JValue.str "thread456")]

/-- Metadata envelope of the `sample-spec calculate` output (src 268-273). -/
def sampleCalcMetadata : JValue :=
  JValue.obj [("agent_id", JValue.str "cli-sample"),
              ("task_id", JValue.str "calculation-test"),
              ("message_id", JValue.str "msg789"),
              ("thread_id", JValue.str "thread012")]

/-- The token counts injected into the first sampled record of
`sample-spec calculate` (src lines 258-261). -/
def calcTokensFirst : JDict :=
  [("input_tokens", JValue.num 1000), ("output_tokens", JValue.num 500)]

/-- The token counts injected into the second sampled record of
`sample-spec calculate` (src lines 262-265). -/
def calcTokensSecond : JDict :=
  [("input_tokens", JValue.num 2000), ("output_tokens", JValue.num 1000)]

/-- The JSON printed by `sample-spec compare` (src lines 244-255), with the
outcome of `random.sample(models, 2)` modelled by the two chosen distinct
positions `i` and `j`. -/
def sampleSpecCompare (models : List JDict) (i j : Fin models.length) : JValue :=
  JValue.obj [("models", JValue.arr [JValue.obj (models.get i), JValue.obj (models.get j)]),
              ("input_tokens", JValue.num 1000),
              ("output_tokens", JValue.num 500),
              ("metadata", sampleCompareMetadata)]

/-- The JSON printed by `sample-spec calculate` (src lines 257-274): the two
sampled records, with the literal token counts injected by
`twomodels[0].update(...)` and `twomodels[1].update(...)`. -/
def sampleSpecCalculate (models : List JDict) (i j : Fin models.length) : JValue :=
  JValue.obj [("calculations",
                JValue.arr [JValue.obj (dictUpdate (models.get i) calcTokensFirst),
                            JValue.obj (dictUpdate (models.get j) calcTokensSecond)]),
              ("metadata", sampleCalcMetadata)]

/-! ### Command outcomes

Each click command is a total function from its inputs and the results of
its external effects (HTTP calls, file parsing) to an `Outcome`.  The HTTP
layer appears as `Except String α`: `Except.error e` is a
`requests.RequestException` whose message is `e` (raised by the call itself
or by `raise_for_status()` on a non-2xx response).  `Outcome.clickError`
is a raised `click.ClickException`, which click renders as a single error
message and a non-zero exit status; `Outcome.uncaught` is an exception that
no handler in the command catches, which aborts the process with a
traceback. -/

inductive Outcome (α : Type) : Type where
  | ok : α → Outcome α
  | clickError : String → Outcome α
  | uncaught : String → Outcome α
deriving DecidableEq

/-- Whether an outcome is a handled, single-message user-facing failure
(a `click.ClickException`), as opposed to success or an escaped
exception. -/
def Outcome.isHandledFailure {α : Type} : Outcome α → Bool
  | Outcome.clickError _ => true
  | _ => false

/-- The `list_models` command (src lines 101-136): the body runs inside
`try/except requests.RequestException`. -/
def list_models_cmd (fetch : Except String (List ModelRecord))
    (search : String) : Outcome ListModelsOutput :=
  match fetch with
  | Except.error e => Outcome.clickError ("API request failed: " ++ e)
  | Except.ok models => Outcome.ok (listModelsRender search models)

/-- What `list_providers` prints on success. -/
inductive ProvidersOutput : Type where
  | noProviders : ProvidersOutput
  | table : List (String × Nat) → Nat → ProvidersOutput
deriving DecidableEq

/-- The `list_providers` command (src lines 138-153).  A `KeyError` from
`get_providers` is not a `requests.RequestException`, so it would escape
the handler. -/
def list_providers_cmd (fetch : Except String (List ModelRecord)) :
    Outcome ProvidersOutput :=
  match fetch with
  | Except.error e => Outcome.clickError ("API request failed: " ++ e)
  | Except.ok models =>
    match get_providers models with
    | none => Outcome.uncaught "KeyError: provider"
    | some counts =>
      if counts.isEmpty then Outcome.ok ProvidersOutput.noProviders
      else Outcome.ok (ProvidersOutput.table counts counts.length)

/-- The `stats` command (src lines 155-165): render the fetched mapping as
a table. -/
def stats_cmd (fetch : Except String (List (String × Nat))) :
    Outcome (List (String × Nat)) :=
  match fetch with
  | Except.error e => Outcome.clickError ("API request failed: " ++ e)
  | Except.ok stats => Outcome.ok stats

/-- The `search` command (src lines 167-202): build the criteria from the
flags, POST `searchPayload`, print the JSON response.  `post` is the remote
service's response to the body that `search_models` sends. -/
def search_cmd (c : SearchCriteria)
    (post : JValue → Except String JValue) : Outcome JValue :=
  match post (searchPayload c) with
  | Except.error e => Outcome.clickError ("API request failed: " ++ e)
  | Except.ok r => Outcome.ok r

/-- The `compare` command (src lines 204-217).  `file` is the result of
`json.load` on the opened spec file (`Except.error e` is a
`json.JSONDecodeError` with message `e`); `post` is the remote response to
a POSTed body.  The second component records whether an HTTP request was
issued at all. -/
def compare_cmd (file : Except String JValue)
    (post : JValue → Except String JValue) : Outcome JValue × Bool :=
  match file with
  | Except.error e => (Outcome.clickError ("Error reading input file: " ++ e), false)
  | Except.ok d =>
    match post d with
    | Except.error e => (Outcome.clickError ("API request failed: " ++ e), true)
    | Except.ok r => (Outcome.ok r, true)

/-- The `calculate` command (src lines 219-232), structurally identical to
`compare` but POSTing to the calculate endpoint. -/
def calculate_cmd (file : Except String JValue)
    (post : JValue → Except String JValue) : Outcome JValue × Bool :=
  match file with
  | Except.error e => (Outcome.clickError ("Error reading input file: " ++ e), false)
  | Except.ok d =>
    match post d with
    | Except.error e => (Outcome.clickError ("API request failed: " ++ e), true)
    | Except.ok r => (Outcome.ok r, true)

/-- The positional choice argument of `sample-spec`. -/
inductive SampleCmd : Type where
  | compare : SampleCmd
  | calculate : SampleCmd
deriving DecidableEq

/-- The `sample_spec` command (src lines 234-274).  Unlike every other
command, its body has no `try/except`, so a `requests.RequestException`
from `client.get_models()` escapes unhandled.  `i` and `j` model the
positions chosen by `random.sample(models, 2)`; the guard is exactly
`random.sample`'s contract (two distinct valid positions exist iff the
population has at least two elements), and its failure is the `ValueError`
that `random.sample` raises, likewise uncaught. -/
def sample_spec_cmd (cmd : SampleCmd)
    (fetch : Except String (List JDict)) (i j : Nat) : Outcome JValue :=
  match fetch with
  | Except.error e => Outcome.uncaught ("requests.RequestException: " ++ e)
  | Except.ok models =>
    if h : i < models.length ∧ j < models.length ∧ i ≠ j then
      Outcome.ok
        (match cmd with
         | SampleCmd.compare => sampleSpecCompare models ⟨i, h.1⟩ ⟨j, h.2.1⟩
         | SampleCmd.calculate => sampleSpecCalculate models ⟨i, h.1⟩ ⟨j, h.2.1⟩)
    else Outcome.uncaught "ValueError: Sample larger than population or is negative"

/-- Python truthiness of the `API_KEY` value: `os.getenv` yields `None`
when the variable is unset, and `not API_KEY` is also true for `''`. -/
def apiKeyTruthy : Option String → Bool
  | none => false
  | some s => !(s = "")

/-- The click group callback `cli` (src lines 90-99), which runs before any
subcommand is dispatched: with a falsy `API_KEY` it raises
`click.ClickException`.  `sub` is whatever the dispatched subcommand would
produce, paired with whether it would issue a network call; the callback
failing means `sub` is never consulted and no request is sent. -/
def cli_group (apiKey : Option String)
    (sub : Outcome JValue × Bool) : Outcome JValue × Bool :=
  if apiKeyTruthy apiKey then sub
  else (Outcome.clickError "COMPARER_API_KEY environment variable not set", false)

/-! ### Concrete fixtures used by witness theorems -/

/-- Three-record fixture from the spec's example: exactly one record's
model_name contains `gpt` case-insensitively. -/
def fixtureGpt : List ModelRecord :=
  [⟨some "OpenAI", some "GPT", some "GPT-4 Turbo"⟩,
   ⟨some "Anthropic", some "Claude", some "Claude 3"⟩,
   ⟨some "Mistral", some "Mixtral", some "Mixtral 8x7B"⟩]

/-- Two-record fixture with distinct providers and a repeat, for the
provider-count witnesses. -/
def fixtureProviders : List ModelRecord :=
  [⟨some "OpenAI", some "GPT", some "GPT-4"⟩,
   ⟨some "Anthropic", some "Claude", some "Claude 3"⟩,
   ⟨some "OpenAI", some "GPT", some "GPT-4o"⟩]

/-- A second provider fixture, for the `list-providers` total witness. -/
def fixtureTotals : List ModelRecord :=
  [⟨some "Mistral", some "Mixtral", some "Mixtral 8x7B"⟩,
   ⟨some "Mistral", some "Mistral", some "Mistral Large"⟩,
   ⟨some "Cohere", some "Command", some "Command R"⟩]

/-- Two raw records for the `sample-spec` witness. -/
def fixtureSample : List JDict :=
  [[("provider", JValue.str "OpenAI"), ("model_name", JValue.str "GPT-4")],
   [("provider", JValue.str "Anthropic"), ("model_name", JValue.str "Claude 3")]]

/-- A record with a missing provider field, for the missing-field witness. -/
def fixtureNoProvider : ModelRecord := ⟨none, some "GPT", some "GPT-4"⟩

/-- First sampled position in the `sample-spec` witness. -/
def sampleIdx0 : Fin fixtureSample.length := ⟨0, by decide⟩

/-- Second sampled position in the `sample-spec` witness. -/
def sampleIdx1 : Fin fixtureSample.length := ⟨1, by decide⟩

/-! ## General lemmas about the embedded operations -/

theorem isPrefOf_iff (n : List Char) : ∀ h : List Char,
    isPrefOf n h = true ↔ ∃ r, h = n ++ r := by
  induction n with
  | nil =>
    intro h
    simp [isPrefOf]
  | cons a as ih =>
    intro h
    cases h with
    | nil => simp [isPrefOf]
    | cons b bs =>
      simp only [isPrefOf, Bool.and_eq_true, decide_eq_true_eq, ih bs]
      constructor
      · rintro ⟨rfl, r, rfl⟩
        exact ⟨r, rfl⟩
      · rintro ⟨r, hr⟩
        rw [List.cons_append] at hr
        injection hr with h1 h2
        exact ⟨h1.symm, r, h2⟩

theorem isSubOf_iff (n : List Char) : ∀ h : List Char,
    isSubOf n h = true ↔ SubstrOf n h := by
  intro h
  induction h with
  | nil =>
    simp only [isSubOf, isPrefOf_iff, SubstrOf]
    constructor
    · rintro ⟨r, hr⟩
      exact ⟨[], r, by simpa using hr⟩
    · rintro ⟨l, r, hr⟩
      have h2 := hr.symm
      simp only [List.append_eq_nil] at h2
      exact ⟨[], by simp [h2.1.2]⟩
  | cons b bs ih =>
    simp only [isSubOf, Bool.or_eq_true, isPrefOf_iff, ih, SubstrOf]
    constructor
    · rintro (⟨r, hr⟩ | ⟨l, r, hr⟩)
      · exact ⟨[], r, by simpa using hr⟩
      · exact ⟨b :: l, r, by simp [hr]⟩
    · rintro ⟨l, r, hr⟩
      cases l with
      | nil => exact Or.inl ⟨r, by simpa using hr⟩
      | cons x xs =>
        rw [List.cons_append] at hr
        injection hr with h1 h2
        exact Or.inr ⟨xs, r, h2⟩

instance (n h : List Char) : Decidable (SubstrOf n h) :=
  decidable_of_iff (isSubOf n h = true) (isSubOf_iff n h)

instance (term field : String) : Decidable (CIMatch term field) := by
  unfold CIMatch
  infer_instance

/-- The Boolean filter of `list_models` agrees with the spec's
case-insensitive three-field-disjunction predicate. -/
theorem modelMatches_iff (S : String) (m : ModelRecord) :
    modelMatches S m = true ↔
      (CIMatch S (fieldOrEmpty m.provider) ∨ CIMatch S (fieldOrEmpty m.model_family) ∨
       CIMatch S (fieldOrEmpty m.model_name)) := by
  simp [modelMatches, pyContains, CIMatch, Bool.or_eq_true, isSubOf_iff, or_assoc]

/-- Occurrence counts through `List.filter`. -/
theorem count_filter_eq {α : Type} [DecidableEq α] (p : α → Bool) (a : α) :
    ∀ l : List α, (l.filter p).count a = if p a = true then l.count a else 0 := by
  intro l
  induction l with
  | nil => simp
  | cons b l ih =>
    by_cases hba : b = a
    · subst hba
      by_cases hp : p b = true <;>
        simp [List.filter_cons, hp, List.count_cons, ih]
    · by_cases hp : p b = true <;>
        simp [List.filter_cons, hp, List.count_cons, ih, hba]

/-- A non-empty string stays non-empty under `pyLower`. -/
theorem pyLower_data_ne_nil (S : String) (hS : S ≠ "") : (pyLower S).data ≠ [] := by
  intro h
  apply hS
  have h2 : S.data.map Char.toLower = [] := h
  have hd : S.data = [] := by
    cases hsd : S.data with
    | nil => rfl
    | cons c cs => rw [hsd] at h2; simp at h2
  cases S with
  | mk data =>
    cases hd
    rfl

/-- A non-empty search term is never found in a missing (empty) field. -/
theorem pyContains_pyLower_empty (S : String) (hS : S ≠ "") :
    pyContains (pyLower "") (pyLower S) = false := by
  unfold pyContains
  cases hd : (pyLower S).data with
  | nil => exact absurd hd (pyLower_data_ne_nil S hS)
  | cons c cs =>
    have h0 : (pyLower "").data = [] := rfl
    rw [h0]
    rfl

/-- Keys after a `bumpCount`: unchanged when the provider was already
present, extended by it otherwise. -/
theorem bumpCount_keys (p : String) : ∀ acc : List (String × Nat),
    (bumpCount acc p).map Prod.fst =
      if p ∈ acc.map Prod.fst then acc.map Prod.fst
      else acc.map Prod.fst ++ [p] := by
  intro acc
  induction acc with
  | nil => simp [bumpCount]
  | cons qn rest ih =>
    obtain ⟨q, n⟩ := qn
    by_cases hq : q = p
    · subst hq
      simp [bumpCount]
    · by_cases hmem : p ∈ rest.map Prod.fst <;>
        simp [bumpCount, hq, ih, hmem, Ne.symm hq]

/-- `bumpCount` increments the looked-up count of its own key. -/
theorem alookup_bumpCount_self (p : String) : ∀ acc : List (String × Nat),
    alookup p (bumpCount acc p) = some ((alookup p acc).getD 0 + 1) := by
  intro acc
  induction acc with
  | nil => simp [bumpCount, alookup]
  | cons qn rest ih =>
    obtain ⟨q, n⟩ := qn
    by_cases hq : q = p
    · subst hq
      simp [bumpCount, alookup]
    · simp [bumpCount, alookup, hq, ih]

/-- `bumpCount` leaves other keys' counts alone. -/
theorem alookup_bumpCount_ne (p q : String) (hq : q ≠ p) :
    ∀ acc : List (String × Nat), alookup q (bumpCount acc p) = alookup q acc := by
  intro acc
  induction acc with
  | nil => simp [bumpCount, alookup, Ne.symm hq]
  | cons kn rest ih =>
    obtain ⟨k, n⟩ := kn
    by_cases hk : k = p
    · subst hk
      simp [bumpCount, alookup, Ne.symm hq]
    · by_cases hk2 : k = q <;> simp [bumpCount, alookup, hk, hk2, hq, ih]

/-- Membership among keys is the same as a successful lookup. -/
theorem alookup_isSome_iff {β : Type} (k : String) : ∀ l : List (String × β),
    (alookup k l).isSome = true ↔ k ∈ l.map Prod.fst := by
  intro l
  induction l with
  | nil => simp [alookup]
  | cons kv rest ih =>
    obtain ⟨k2, v⟩ := kv
    by_cases hk : k2 = k
    · subst hk
      simp [alookup]
    · simp [alookup, hk, ih, Ne.symm hk]

/-- One step of the counting-loop invariant. -/
theorem goodCounts_bump (ps : List String) (acc : List (String × Nat)) (p : String)
    (h : GoodCounts ps acc) : GoodCounts (ps ++ [p]) (bumpCount acc p) := by
  obtain ⟨hnd, hlk⟩ := h
  constructor
  · rw [bumpCount_keys]
    by_cases hmem : p ∈ acc.map Prod.fst
    · simp [hmem, hnd]
    · simp [List.nodup_append, hmem, hnd]
  · intro q
    by_cases hq : q = p
    · subst hq
      rw [alookup_bumpCount_self, hlk q]
      by_cases hin : q ∈ ps
      · simp [hin, List.count_append]
      · simp [hin, List.count_append, List.count_eq_zero.mpr hin]
    · rw [alookup_bumpCount_ne p q hq, hlk q]
      have hm : (q ∈ ps ++ [p]) = (q ∈ ps) := by
        simp [List.mem_append, hq]
      by_cases hin : q ∈ ps
      · simp [hin, hq, List.count_append]
      · simp [hin, hq]

/-- The counting-loop invariant is preserved over the whole list. -/
theorem goodCounts_countsFrom (qs : List String) : ∀ (ps : List String)
    (acc : List (String × Nat)), GoodCounts ps acc →
    GoodCounts (ps ++ qs) (countsFrom acc qs) := by
  induction qs with
  | nil =>
    intro ps acc h
    simpa [countsFrom] using h
  | cons p rest ih =>
    intro ps acc h
    have h3 := ih (ps ++ [p]) (bumpCount acc p) (goodCounts_bump ps acc p h)
    simpa [countsFrom, List.append_assoc] using h3

/-- When every record carries a provider, the `get_providers` loop cannot
hit `KeyError` and computes the pure counting loop over the extracted
provider values. -/
theorem getProvidersAux_eq (models : List ModelRecord)
    (h : ∀ m ∈ models, (m.provider).isSome = true) : ∀ acc : List (String × Nat),
    getProvidersAux acc models = some (countsFrom acc (providersOf models)) := by
  induction models with
  | nil =>
    intro acc
    simp [getProvidersAux, providersOf, countsFrom]
  | cons m ms ih =>
    intro acc
    obtain ⟨p, hp⟩ := Option.isSome_iff_exists.mp (h m (by simp))
    have htail : ∀ m2 ∈ ms, (m2.provider).isSome = true :=
      fun m2 hm2 => h m2 (by simp [hm2])
    simp only [getProvidersAux, hp, providersOf, List.filterMap_cons, countsFrom]
    exact ih htail (bumpCount acc p)

/-- The `GoodCounts` facts transported to `get_providers` itself. -/
theorem get_providers_good (models : List ModelRecord)
    (h : ∀ m ∈ models, (m.provider).isSome = true) :
    get_providers models = some (countsFrom [] (providersOf models)) ∧
    GoodCounts (providersOf models) (countsFrom [] (providersOf models)) := by
  constructor
  · exact getProvidersAux_eq models h []
  · have hbase : GoodCounts [] [] := by
      constructor
      · simp
      · intro q
        simp [alookup]
    simpa using goodCounts_countsFrom (providersOf models) [] [] hbase

/-- Two lookups after updating a dict with two bindings on distinct keys. -/
theorem alookup_dictSet_self (k : String) (v : JValue) : ∀ d : JDict,
    alookup k (dictSet d k v) = some v := by
  intro d
  induction d with
  | nil => simp [dictSet, alookup]
  | cons kv rest ih =>
    obtain ⟨k2, v2⟩ := kv
    by_cases h : k2 = k
    · subst h
      simp [dictSet, alookup]
    · simp [dictSet, alookup, h, ih]

theorem alookup_dictSet_ne (k k2 : String) (v : JValue) (h : k2 ≠ k) :
    ∀ d : JDict, alookup k2 (dictSet d k v) = alookup k2 d := by
  intro d
  induction d with
  | nil => simp [dictSet, alookup, Ne.symm h]
  | cons kv rest ih =>
    obtain ⟨k3, v3⟩ := kv
    by_cases h3 : k3 = k
    · subst h3
      simp [dictSet, alookup, Ne.symm h]
    · by_cases h4 : k3 = k2 <;> simp [dictSet, alookup, h3, h4, h, ih]

theorem dictUpdate_two_lookups (d : JDict) (k1 k2 : String) (v1 v2 : JValue)
    (h : k1 ≠ k2) :
    alookup k1 (dictUpdate d [(k1, v1), (k2, v2)]) = some v1 ∧
    alookup k2 (dictUpdate d [(k1, v1), (k2, v2)]) = some v2 := by
  constructor
  · show alookup k1 (dictSet (dictSet d k1 v1) k2 v2) = some v1
    rw [alookup_dictSet_ne k2 k1 v2 h, alookup_dictSet_self]
  · show alookup k2 (dictSet (dictSet d k1 v1) k2 v2) = some v2
    rw [alookup_dictSet_self]

/-- The key list of the search request body is fixed, whatever is set. -/
theorem searchPayload_keys (c : SearchCriteria) :
    jKeys (searchPayload c) = "metadata" :: criteriaKeys := rfl

/-! ## Claims -/

/-- C1 (amended): unset criteria fields are NOT omitted from the search
request body.  For every criteria struct, every one of the twelve criteria
keys is present in the JSON body `search_models` POSTs, and with no flags
set each such key is bound to `null`; only the metadata envelope key is
ever bound to non-null content on an all-unset request. -/
theorem search_criteria_keys_never_omitted (c : SearchCriteria) (k : String)
    (hk : k ∈ criteriaKeys) :
    k ∈ jKeys (searchPayload c) ∧
    jLookup k (searchPayload SearchCriteria.unset) = some JValue.null := by
  constructor
  · rw [searchPayload_keys]
    exact List.mem_cons_of_mem _ hk
  · fin_cases hk <;> rfl

/-- C1 witness: the amended statement at the key `tools` and an all-unset
criteria struct. -/
theorem search_criteria_keys_never_omitted_w :
    "tools" ∈ criteriaKeys ∧
    ("tools" ∈ jKeys (searchPayload SearchCriteria.unset) ∧
     jLookup "tools" (searchPayload SearchCriteria.unset) = some JValue.null) :=
  ⟨by decide, search_criteria_keys_never_omitted SearchCriteria.unset "tools" (by decide)⟩

/-- C1 counterexample: on a search invocation with no flag given, the
unset `provider` criteria field is not omitted from the request body — its
key is present, bound to `null` — refuting the claim that only set keys
are included. -/
theorem search_unset_key_present_cex :
    "provider" ∈ jKeys (searchPayload SearchCriteria.unset) ∧
    jLookup "provider" (searchPayload SearchCriteria.unset) = some JValue.null :=
  ⟨by decide, rfl⟩

/-- C2: the body POSTed by `search_models` always has exactly the metadata
envelope key (bound to the fixed `agent_id`/`task_id` object) followed by
the twelve criteria keys; each unset criteria field is present with value
`null`; and the no-flags `search` invocation produces the body whose every
criteria key is bound to `null`. -/
theorem search_payload_envelope_and_nulls (c : SearchCriteria) :
    jKeys (searchPayload c) = "metadata" :: criteriaKeys ∧
    jLookup "metadata" (searchPayload c) = some searchMetadata ∧
    searchPayload SearchCriteria.unset =
      JValue.obj (("metadata", searchMetadata) ::
        criteriaKeys.map (fun k => (k, JValue.null))) ∧
    (c.provider = none → jLookup "provider" (searchPayload c) = some JValue.null) ∧
    (c.min_context = none → jLookup "min_context" (searchPayload c) = some JValue.null) ∧
    (c.max_context = none → jLookup "max_context" (searchPayload c) = some JValue.null) ∧
    (c.min_output_tokens = none →
      jLookup "min_output_tokens" (searchPayload c) = some JValue.null) ∧
    (c.max_output_tokens = none →
      jLookup "max_output_tokens" (searchPayload c) = some JValue.null) ∧
    (c.tools = none → jLookup "tools" (searchPayload c) = some JValue.null) ∧
    (c.multilingual = none → jLookup "multilingual" (searchPayload c) = some JValue.null) ∧
    (c.audio = none → jLookup "audio" (searchPayload c) = some JValue.null) ∧
    (c.vision = none → jLookup "vision" (searchPayload c) = some JValue.null) ∧
    (c.reasoning = none → jLookup "reasoning" (searchPayload c) = some JValue.null) ∧
    (c.fine_tuning = none → jLookup "fine_tuning" (searchPayload c) = some JValue.null) ∧
    (c.streaming = none →
      jLookup "realtime_streaming" (searchPayload c) = some JValue.null) := by
  obtain ⟨p, a1, a2, a3, a4, b1, b2, b3, b4, b5, b6, b7⟩ := c
  refine ⟨rfl, rfl, rfl, ?_, ?_, ?_, ?_, ?_, ?_, ?_, ?_, ?_, ?_, ?_, ?_⟩ <;>
    (rintro rfl; rfl)

/-- C2 witness: on the all-unset criteria, the envelope is present and the
unset `provider` field is sent as `null`. -/
theorem search_payload_envelope_and_nulls_w :
    jLookup "metadata" (searchPayload SearchCriteria.unset) = some searchMetadata ∧
    jLookup "provider" (searchPayload SearchCriteria.unset) = some JValue.null :=
  ⟨(search_payload_envelope_and_nulls SearchCriteria.unset).2.1,
   (search_payload_envelope_and_nulls SearchCriteria.unset).2.2.2.1 rfl⟩

/-- C3: for a non-empty search term, `list-models` retains exactly the
records in which the term occurs case-insensitively in provider,
model_family or model_name (each surviving record keeps its multiplicity —
matching in several fields does not duplicate it), and the trailing
`Total models:` line shows the number of retained records. -/
theorem list_models_filter_spec (S : String) (models : List ModelRecord)
    (hS : S ≠ "") :
    (∀ m, m ∈ filterModels S models ↔
        m ∈ models ∧ (CIMatch S (fieldOrEmpty m.provider) ∨
                      CIMatch S (fieldOrEmpty m.model_family) ∨
                      CIMatch S (fieldOrEmpty m.model_name))) ∧
    (∀ m, (filterModels S models).count m =
        if CIMatch S (fieldOrEmpty m.provider) ∨ CIMatch S (fieldOrEmpty m.model_family) ∨
           CIMatch S (fieldOrEmpty m.model_name)
        then models.count m else 0) ∧
    (filterModels S models ≠ [] →
      listModelsRender S models =
        ListModelsOutput.table ((filterModels S models).map renderRow)
          (filterModels S models).length) := by
  have hfm : filterModels S models = models.filter (modelMatches S) := by
    unfold filterModels
    rw [if_neg hS]
  refine ⟨?_, ?_, ?_⟩
  · intro m
    rw [hfm, List.mem_filter, modelMatches_iff]
  · intro m
    rw [hfm, count_filter_eq]
    by_cases hc : CIMatch S (fieldOrEmpty m.provider) ∨ CIMatch S (fieldOrEmpty m.model_family) ∨
        CIMatch S (fieldOrEmpty m.model_name)
    · rw [if_pos ((modelMatches_iff S m).mpr hc), if_pos hc]
    · rw [if_neg (fun h => hc ((modelMatches_iff S m).mp h)), if_neg hc]
  · intro hne
    have hie : (filterModels S models).isEmpty = false := by
      cases hfe : filterModels S models with
      | nil => exact absurd hfe hne
      | cons a l => rfl
    simp [listModelsRender, hie]

/-- C3 witness: the filtering property at the concrete `gpt` fixture. -/
theorem list_models_filter_spec_w :
    ("gpt" ≠ "") ∧
    ((∀ m, m ∈ filterModels "gpt" fixtureGpt ↔
        m ∈ fixtureGpt ∧ (CIMatch "gpt" (fieldOrEmpty m.provider) ∨
                          CIMatch "gpt" (fieldOrEmpty m.model_family) ∨
                          CIMatch "gpt" (fieldOrEmpty m.model_name))) ∧
     (∀ m, (filterModels "gpt" fixtureGpt).count m =
        if CIMatch "gpt" (fieldOrEmpty m.provider) ∨
           CIMatch "gpt" (fieldOrEmpty m.model_family) ∨
           CIMatch "gpt" (fieldOrEmpty m.model_name)
        then fixtureGpt.count m else 0) ∧
     (filterModels "gpt" fixtureGpt ≠ [] →
        listModelsRender "gpt" fixtureGpt =
          ListModelsOutput.table ((filterModels "gpt" fixtureGpt).map renderRow)
            (filterModels "gpt" fixtureGpt).length)) :=
  ⟨by decide, list_models_filter_spec "gpt" fixtureGpt (by decide)⟩

/-- C4: on any model list whose records all carry a provider field,
`get_providers` returns a mapping — duplicate-free keys with associated
values, not a plain list of names — whose keys are exactly the distinct
provider values of the list and whose value at each provider is the number
of records with that provider. -/
theorem get_providers_counts (models : List ModelRecord)
    (h : ∀ m ∈ models, (m.provider).isSome = true) :
    ∃ counts, get_providers models = some counts ∧
      (counts.map Prod.fst).Nodup ∧
      (∀ p, p ∈ counts.map Prod.fst ↔ p ∈ providersOf models) ∧
      (∀ p, p ∈ providersOf models →
        alookup p counts = some ((providersOf models).count p)) := by
  obtain ⟨heq, hnd, hlk⟩ := get_providers_good models h
  refine ⟨countsFrom [] (providersOf models), heq, hnd, ?_, ?_⟩
  · intro p
    rw [← alookup_isSome_iff, hlk p]
    by_cases hp : p ∈ providersOf models <;> simp [hp]
  · intro p hp
    rw [hlk p, if_pos hp]

/-- C4 witness: the counting property on a fixture with a repeated
provider. -/
theorem get_providers_counts_w :
    (∀ m ∈ fixtureProviders, (m.provider).isSome = true) ∧
    (∃ counts, get_providers fixtureProviders = some counts ∧
      (counts.map Prod.fst).Nodup ∧
      (∀ p, p ∈ counts.map Prod.fst ↔ p ∈ providersOf fixtureProviders) ∧
      (∀ p, p ∈ providersOf fixtureProviders →
        alookup p counts = some ((providersOf fixtureProviders).count p))) :=
  ⟨by decide, get_providers_counts fixtureProviders (by decide)⟩

/-- C5: on any non-empty model list whose records all carry a provider,
the `Total providers:` count printed by `list-providers` is the length of
the counts mapping, which equals the number of distinct provider values of
the list — not the sum of the per-provider model counts. -/
theorem list_providers_total_distinct (models : List ModelRecord)
    (h : ∀ m ∈ models, (m.provider).isSome = true) (hne : models ≠ []) :
    ∃ counts, get_providers models = some counts ∧
      list_providers_cmd (Except.ok models) =
        Outcome.ok (ProvidersOutput.table counts counts.length) ∧
      counts.length = (providersOf models).dedup.length := by
  obtain ⟨heq, hnd, hlk⟩ := get_providers_good models h
  have hmem : ∀ p, p ∈ (countsFrom [] (providersOf models)).map Prod.fst ↔
      p ∈ providersOf models := by
    intro p
    rw [← alookup_isSome_iff, hlk p]
    by_cases hp : p ∈ providersOf models <;> simp [hp]
  have hperm : ((countsFrom [] (providersOf models)).map Prod.fst).Perm
      (providersOf models).dedup := by
    rw [List.perm_ext_iff_of_nodup hnd (List.nodup_dedup _)]
    intro a
    rw [hmem a, List.mem_dedup]
  have hlen : (countsFrom [] (providersOf models)).length =
      (providersOf models).dedup.length := by
    have hl := hperm.length_eq
    simpa using hl
  have hpne : providersOf models ≠ [] := by
    cases models with
    | nil => exact absurd rfl hne
    | cons m ms =>
      obtain ⟨p, hp⟩ := Option.isSome_iff_exists.mp (h m (by simp))
      simp [providersOf, List.filterMap_cons, hp]
  have hcne : countsFrom [] (providersOf models) ≠ [] := by
    intro h0
    obtain ⟨p, hp⟩ := List.exists_mem_of_ne_nil _ hpne
    have hp2 : p ∈ (countsFrom [] (providersOf models)).map Prod.fst := (hmem p).mpr hp
    rw [h0] at hp2
    simp at hp2
  have hie : (countsFrom [] (providersOf models)).isEmpty = false := by
    cases hc2 : countsFrom [] (providersOf models) with
    | nil => exact absurd hc2 hcne
    | cons a l => rfl
  refine ⟨countsFrom [] (providersOf models), heq, ?_, hlen⟩
  simp [list_providers_cmd, heq, hie]

/-- C5 witness: the distinct-provider total on a fixture where the sum of
per-provider counts (3) differs from the distinct count (2). -/
theorem list_providers_total_distinct_w :
    (∀ m ∈ fixtureTotals, (m.provider).isSome = true) ∧ fixtureTotals ≠ [] ∧
    (∃ counts, get_providers fixtureTotals = some counts ∧
      list_providers_cmd (Except.ok fixtureTotals) =
        Outcome.ok (ProvidersOutput.table counts counts.length) ∧
      counts.length = (providersOf fixtureTotals).dedup.length) :=
  ⟨by decide, by decide,
   list_providers_total_distinct fixtureTotals (by decide) (by decide)⟩

/-- C6: whatever two distinct positions `random.sample` picks (its
contract when at least two records exist, and such a pick forces the list
to have at least two records), `sample-spec calculate` prints a
calculations array holding the two sampled records — taken from distinct
positions, never the same record twice — with input_tokens=1000 and
output_tokens=500 injected into the first and input_tokens=2000 and
output_tokens=1000 into the second.  Uniformity of the pick is
`random.sample`'s own documented guarantee and lives outside the
embedding. -/
theorem sample_spec_calculate_tokens (models : List JDict)
    (i j : Fin models.length) (hij : i ≠ j) :
    2 ≤ models.length ∧
    (i : Nat) ≠ (j : Nat) ∧
    sampleSpecCalculate models i j =
      JValue.obj [("calculations",
          JValue.arr [JValue.obj (dictUpdate (models.get i) calcTokensFirst),
                      JValue.obj (dictUpdate (models.get j) calcTokensSecond)]),
        ("metadata", sampleCalcMetadata)] ∧
    alookup "input_tokens" (dictUpdate (models.get i) calcTokensFirst) =
      some (JValue.num 1000) ∧
    alookup "output_tokens" (dictUpdate (models.get i) calcTokensFirst) =
      some (JValue.num 500) ∧
    alookup "input_tokens" (dictUpdate (models.get j) calcTokensSecond) =
      some (JValue.num 2000) ∧
    alookup "output_tokens" (dictUpdate (models.get j) calcTokensSecond) =
      some (JValue.num 1000) := by
  have hvne : (i : Nat) ≠ (j : Nat) := fun hv => hij (Fin.ext hv)
  have h2 : 2 ≤ models.length := by
    have hi := i.isLt
    have hj := j.isLt
    omega
  have ha := dictUpdate_two_lookups (models.get i) "input_tokens" "output_tokens"
      (JValue.num 1000) (JValue.num 500) (by decide)
  have hb := dictUpdate_two_lookups (models.get j) "input_tokens" "output_tokens"
      (JValue.num 2000) (JValue.num 1000) (by decide)
  exact ⟨h2, hvne, rfl, ha.1, ha.2, hb.1, hb.2⟩

/-- C6 witness: the token-injection property at a concrete two-record
fixture with the pick (0, 1). -/
theorem sample_spec_calculate_tokens_w :
    sampleIdx0 ≠ sampleIdx1 ∧
    (2 ≤ fixtureSample.length ∧
     (sampleIdx0 : Nat) ≠ (sampleIdx1 : Nat) ∧
     sampleSpecCalculate fixtureSample sampleIdx0 sampleIdx1 =
       JValue.obj [("calculations",
           JValue.arr [JValue.obj (dictUpdate (fixtureSample.get sampleIdx0) calcTokensFirst),
                       JValue.obj (dictUpdate (fixtureSample.get sampleIdx1) calcTokensSecond)]),
         ("metadata", sampleCalcMetadata)] ∧
     alookup "input_tokens" (dictUpdate (fixtureSample.get sampleIdx0) calcTokensFirst) =
       some (JValue.num 1000) ∧
     alookup "output_tokens" (dictUpdate (fixtureSample.get sampleIdx0) calcTokensFirst) =
       some (JValue.num 500) ∧
     alookup "input_tokens" (dictUpdate (fixtureSample.get sampleIdx1) calcTokensSecond) =
       some (JValue.num 2000) ∧
     alookup "output_tokens" (dictUpdate (fixtureSample.get sampleIdx1) calcTokensSecond) =
       some (JValue.num 1000)) :=
  ⟨by decide,
   sample_spec_calculate_tokens fixtureSample sampleIdx0 sampleIdx1 (by decide)⟩

/-- C10: on a fetched model list, `list-models` always completes with a
rendered output (no exception path exists in its success branch); a record
with a missing provider, model_family or model_name field is matched
against a non-empty search term only through its present fields (the
missing one behaves as the empty string, which cannot contain the term),
and is rendered with the literal `N/A` in the missing column. -/
theorem list_models_missing_fields (S : String) (m : ModelRecord)
    (models : List ModelRecord) (hS : S ≠ "") :
    list_models_cmd (Except.ok models) S = Outcome.ok (listModelsRender S models) ∧
    (m.provider = none →
      modelMatches S m =
        (pyContains (pyLower (fieldOrEmpty m.model_family)) (pyLower S) ||
         pyContains (pyLower (fieldOrEmpty m.model_name)) (pyLower S)) ∧
      renderRow m = ("N/A", m.model_family.getD "N/A", m.model_name.getD "N/A")) ∧
    (m.model_family = none →
      modelMatches S m =
        (pyContains (pyLower (fieldOrEmpty m.provider)) (pyLower S) ||
         pyContains (pyLower (fieldOrEmpty m.model_name)) (pyLower S)) ∧
      renderRow m = (m.provider.getD "N/A", "N/A", m.model_name.getD "N/A")) ∧
    (m.model_name = none →
      modelMatches S m =
        (pyContains (pyLower (fieldOrEmpty m.provider)) (pyLower S) ||
         pyContains (pyLower (fieldOrEmpty m.model_family)) (pyLower S)) ∧
      renderRow m = (m.provider.getD "N/A", m.model_family.getD "N/A", "N/A")) := by
  obtain ⟨p, f, nm⟩ := m
  refine ⟨rfl, ?_, ?_, ?_⟩ <;> rintro rfl <;>
    exact ⟨by simp [modelMatches, fieldOrEmpty, pyContains_pyLower_empty S hS], rfl⟩

/-- C10 witness: a record missing its provider, searched with `x`. -/
theorem list_models_missing_fields_w :
    ("x" ≠ "") ∧
    (fixtureNoProvider.provider = none →
      modelMatches "x" fixtureNoProvider =
        (pyContains (pyLower (fieldOrEmpty fixtureNoProvider.model_family)) (pyLower "x") ||
         pyContains (pyLower (fieldOrEmpty fixtureNoProvider.model_name)) (pyLower "x")) ∧
      renderRow fixtureNoProvider =
        ("N/A", fixtureNoProvider.model_family.getD "N/A",
         fixtureNoProvider.model_name.getD "N/A")) :=
  ⟨by decide,
   (list_models_missing_fields "x" fixtureNoProvider [fixtureNoProvider] (by decide)).2.1⟩

/-- C7 (amended): a transport failure or non-2xx response is surfaced as a
single `ClickException` error message naming the underlying cause (and
hence a non-zero exit with no other output) by `list-models`,
`list-providers`, `stats`, `search`, `compare` and `calculate` — but not
by `sample-spec`, whose body has no exception handler, so the
`requests.RequestException` from its fetch escapes unhandled. -/
theorem transport_failure_surfacing (e s : String) (c : SearchCriteria)
    (d : JValue) (cmd : SampleCmd) (i j : Nat) :
    list_models_cmd (Except.error e) s =
      Outcome.clickError ("API request failed: " ++ e) ∧
    list_providers_cmd (Except.error e) =
      Outcome.clickError ("API request failed: " ++ e) ∧
    stats_cmd (Except.error e) =
      Outcome.clickError ("API request failed: " ++ e) ∧
    search_cmd c (fun _ => Except.error e) =
      Outcome.clickError ("API request failed: " ++ e) ∧
    compare_cmd (Except.ok d) (fun _ => Except.error e) =
      (Outcome.clickError ("API request failed: " ++ e), true) ∧
    calculate_cmd (Except.ok d) (fun _ => Except.error e) =
      (Outcome.clickError ("API request failed: " ++ e), true) ∧
    sample_spec_cmd cmd (Except.error e) i j =
      Outcome.uncaught ("requests.RequestException: " ++ e) :=
  ⟨rfl, rfl, rfl, rfl, rfl, rfl, rfl⟩

/-- C7 witness: the surfacing behaviour at a concrete failure message. -/
theorem transport_failure_surfacing_w :
    list_models_cmd (Except.error "Connection refused") "" =
      Outcome.clickError ("API request failed: " ++ "Connection refused") ∧
    list_providers_cmd (Except.error "Connection refused") =
      Outcome.clickError ("API request failed: " ++ "Connection refused") ∧
    stats_cmd (Except.error "Connection refused") =
      Outcome.clickError ("API request failed: " ++ "Connection refused") ∧
    search_cmd SearchCriteria.unset (fun _ => Except.error "Connection refused") =
      Outcome.clickError ("API request failed: " ++ "Connection refused") ∧
    compare_cmd (Except.ok JValue.null) (fun _ => Except.error "Connection refused") =
      (Outcome.clickError ("API request failed: " ++ "Connection refused"), true) ∧
    calculate_cmd (Except.ok JValue.null) (fun _ => Except.error "Connection refused") =
      (Outcome.clickError ("API request failed: " ++ "Connection refused"), true) ∧
    sample_spec_cmd SampleCmd.calculate (Except.error "Connection refused") 0 1 =
      Outcome.uncaught ("requests.RequestException: " ++ "Connection refused") :=
  transport_failure_surfacing "Connection refused" "" SearchCriteria.unset
    JValue.null SampleCmd.calculate 0 1

/-- C7 counterexample: `sample-spec` on a transport failure does not
surface a single handled user-facing error — the exception escapes as an
unhandled traceback — refuting the claim that no command lets the
transport exception escape. -/
theorem sample_spec_transport_escape_cex :
    sample_spec_cmd SampleCmd.calculate (Except.error "Connection refused") 0 1 =
      Outcome.uncaught ("requests.RequestException: " ++ "Connection refused") ∧
    (sample_spec_cmd SampleCmd.calculate
        (Except.error "Connection refused") 0 1).isHandledFailure = false :=
  ⟨rfl, rfl⟩

/-- C8: when the API-key environment variable is unset (`os.getenv` yields
`None`) or empty, the group callback raises a `ClickException` before any
subcommand runs: whatever the dispatched subcommand would have produced,
the invocation ends in the fatal configuration error and no network call
is attempted (second component `false`). -/
theorem missing_api_key_fatal (apiKey : Option String)
    (h : apiKey = none ∨ apiKey = some "") (sub : Outcome JValue × Bool) :
    cli_group apiKey sub =
      (Outcome.clickError "COMPARER_API_KEY environment variable not set", false) := by
  rcases h with rfl | rfl <;> rfl

/-- C8 witness: the unset-variable case, against a subcommand that would
have succeeded after a network call. -/
theorem missing_api_key_fatal_w :
    ((none : Option String) = none ∨ (none : Option String) = some "") ∧
    cli_group none (Outcome.ok JValue.null, true) =
      (Outcome.clickError "COMPARER_API_KEY environment variable not set", false) :=
  ⟨Or.inl rfl, missing_api_key_fatal none (Or.inl rfl) (Outcome.ok JValue.null, true)⟩

/-- C9: when `json.load` fails on the spec file, both `compare` and
`calculate` surface the file-reading `ClickException` and never issue the
HTTP POST: the outcome is the same for every possible remote behaviour
`post`, and the request-issued flag is `false`. -/
theorem invalid_json_no_request (e : String)
    (post post2 : JValue → Except String JValue) :
    compare_cmd (Except.error e) post =
      (Outcome.clickError ("Error reading input file: " ++ e), false) ∧
    calculate_cmd (Except.error e) post2 =
      (Outcome.clickError ("Error reading input file: " ++ e), false) :=
  ⟨rfl, rfl⟩

/-- C9 witness: a concrete JSON parse error, with a remote that would have
answered successfully had it been called. -/
theorem invalid_json_no_request_w :
    compare_cmd (Except.error "Expecting value: line 1 column 1 (char 0)")
        (fun _ => Except.ok JValue.null) =
      (Outcome.clickError
        ("Error reading input file: " ++ "Expecting value: line 1 column 1 (char 0)"),
       false) ∧
    calculate_cmd (Except.error "Expecting value: line 1 column 1 (char 0)")
        (fun _ => Except.ok JValue.null) =
      (Outcome.clickError
        ("Error reading input file: " ++ "Expecting value: line 1 column 1 (char 0)"),
       false) :=
  invalid_json_no_request "Expecting value: line 1 column 1 (char 0)"
    (fun _ => Except.ok JValue.null) (fun _ => Except.ok JValue.null)

end ComparerCli
